import Mathlib

/-!
Shallow embedding of the pulse liveness-reporting core: the server-side
ingestion handlers (register / update / heartbeat, in both the Worker and the
Agent variant present in the source), the storage constraints declared in the
SQL schema, and the client-side heartbeat agent (constructor, one-shot calls,
periodic loop, stop channel).
-/

namespace Pulse

/-- Hex-digit test (digits 0-9, a-f, A-F), used by the UUID parser model. -/
def isHexDigit (c : Char) : Bool :=
  (48 ≤ c.toNat && c.toNat ≤ 57) ||
  (97 ≤ c.toNat && c.toNat ≤ 102) ||
  (65 ≤ c.toNat && c.toNat ≤ 70)

/-- Lower-cases the hex letters A-F, leaving every other character unchanged.
Used to render a parsed UUID in the canonical lowercase form that
uuid.UUID.String() produces. -/
def hexCharToLower (c : Char) : Char :=
  if c = 'A' then 'a'
  else if c = 'B' then 'b'
  else if c = 'C' then 'c'
  else if c = 'D' then 'd'
  else if c = 'E' then 'e'
  else if c = 'F' then 'f'
  else c

/-- Model of uuid.Parse (github.com/google/uuid) restricted to the canonical
36-character xxxxxxxx-xxxx-xxxx-xxxx-xxxxxxxxxxxx form, the only form the
system's own clients produce (they send uuid.UUID.String()).  Parsing is
case-insensitive on the hex digits; the result is the canonical lowercase
rendering, which is what the parsed uuid value prints as and what the
database stores. -/
def uuidParse (s : String) : Option String :=
  let cs := s.toList
  if cs.length == 36
     && (List.range 36).all (fun i =>
          if i == 8 || i == 13 || i == 18 || i == 23 then cs.getD i '0' == '-'
          else isHexDigit (cs.getD i '-'))
  then some (String.mk (cs.map hexCharToLower))
  else none

/-- The nine lifecycle states.  The allowedAgentStatus map of the Agent
handlers and the agent_state / worker_status SQL enums all list exactly
these nine strings. -/
def agentStates : List String :=
  ["starting", "healthy", "working", "idle", "error",
   "unreachable", "crashed", "stopped", "disabled"]

/-- Membership in the closed status vocabulary (the allowedAgentStatus map of
the Agent handlers; also the membership test the SQL enum columns enforce). -/
def allowedAgentStatus (s : String) : Bool := agentStates.contains s

/-- The default agent-type allow-list: the allowedAgentTypes map of the Agent
handlers holds the single entry "default". -/
def allowedAgentTypesDefault : List String := ["default"]

/-- A row of the workers table (the agents table of the Agent variant has the
identical schema: id UUID PRIMARY KEY, name TEXT NOT NULL, type TEXT,
time TIMESTAMPTZ). -/
structure WorkerRow where
  id : String
  name : String
  ty : String
  time : Nat
  deriving DecidableEq, Repr

/-- A row of worker_updates / worker_heartbeats (agent_updates /
agent_heartbeats in the Agent variant): worker_id UUID REFERENCES workers(id),
status worker_status NOT NULL, message TEXT, time TIMESTAMPTZ.  Heartbeat rows
carry no message. -/
structure EventRow where
  workerId : String
  status : String
  message : Option String
  time : Nat
  deriving DecidableEq, Repr

/-- The database state: the identity table and the two append-only event
tables declared in tables.sql. -/
structure DB where
  workers : List WorkerRow
  workerUpdates : List EventRow
  workerHeartbeats : List EventRow
  deriving DecidableEq, Repr

def emptyDB : DB := ⟨[], [], []⟩

/-- Storage-level errors: the pg error classes the schema constraints can
raise on the statements the handlers issue.  uniqueViolation is pg code 23505
(duplicate PRIMARY KEY), fkViolation is the foreign-key rejection of an event
whose worker_id matches no identity row, invalidEnumValue is the rejection of
a status string that is not a member of the worker_status / agent_state
enum. -/
inductive PgError
  | uniqueViolation
  | fkViolation
  | invalidEnumValue
  deriving DecidableEq, Repr

/-- Does an identity row with the given id exist? -/
def DB.hasWorker (db : DB) (id : String) : Bool :=
  db.workers.any (fun r => r.id == id)

/-- INSERT INTO workers ... ON CONFLICT (id) DO UPDATE SET name, type,
time = now(): the upsert issued by WorkerRegisterHandler.  Never violates a
constraint. -/
def execInsertWorkerUpsert (db : DB) (now : Nat) (id name ty : String) : DB :=
  if db.hasWorker id then
    { db with workers := db.workers.map (fun r =>
        if r.id == id then { r with name := name, ty := ty, time := now } else r) }
  else
    { db with workers := db.workers ++ [⟨id, name, ty, now⟩] }

/-- Plain INSERT INTO agents (id, name, type): the statement issued by
AgentRegisterHandler.  Raises the unique violation (23505) when the PRIMARY
KEY id already exists. -/
def execInsertAgentRow (db : DB) (now : Nat) (id name ty : String) :
    Except PgError DB :=
  if db.hasWorker id then .error .uniqueViolation
  else .ok { db with workers := db.workers ++ [⟨id, name, ty, now⟩] }

/-- INSERT INTO worker_updates (worker_id, status, message): the enum typing
of the status column rejects a string outside the nine states, and the
foreign key rejects a worker_id with no identity row (input conversion
happens before constraint checking, so a bad enum literal fires first). -/
def execInsertUpdate (db : DB) (now : Nat) (workerId status message : String) :
    Except PgError DB :=
  if ¬ allowedAgentStatus status then .error .invalidEnumValue
  else if ¬ db.hasWorker workerId then .error .fkViolation
  else .ok { db with
    workerUpdates := db.workerUpdates ++ [⟨workerId, status, some message, now⟩] }

/-- INSERT INTO worker_heartbeats (worker_id, status): same constraints as
worker_updates, no message column. -/
def execInsertHeartbeat (db : DB) (now : Nat) (workerId status : String) :
    Except PgError DB :=
  if ¬ allowedAgentStatus status then .error .invalidEnumValue
  else if ¬ db.hasWorker workerId then .error .fkViolation
  else .ok { db with
    workerHeartbeats := db.workerHeartbeats ++ [⟨workerId, status, none, now⟩] }

/-- Body of a register request: {id, name, type}. -/
structure WorkerRegisterRequest where
  id : String
  name : String
  ty : String
  deriving DecidableEq, Repr

/-- Body of an update request: {id, status, message}. -/
structure WorkerUpdateRequest where
  id : String
  status : String
  message : String
  deriving DecidableEq, Repr

/-- Body of a heartbeat request: {id, status}. -/
structure WorkerHeartbeatRequest where
  id : String
  status : String
  deriving DecidableEq, Repr

/-- An HTTP response: status code and the message string from the handler. -/
structure Response where
  status : Nat
  body : String
  deriving DecidableEq, Repr

/-- Result of running a handler: the response, the database afterwards, and
whether the handler reached a db.Pool.Exec call (storage access). -/
structure HandlerOut where
  resp : Response
  db : DB
  storageAccessed : Bool
  deriving DecidableEq, Repr

/-- WorkerRegisterHandler (internal/handlers/worker.go): parse UUID, require
non-empty name (the type field is not validated), then upsert into workers.
The upsert cannot violate a constraint, so the 500 branch of the source is
unreachable in this model. -/
def workerRegisterHandler (db : DB) (now : Nat) (req : WorkerRegisterRequest) :
    HandlerOut :=
  match uuidParse req.id with
  | none => ⟨⟨400, "invalid UUID"⟩, db, false⟩
  | some id =>
    if req.name = "" then ⟨⟨400, "name is required"⟩, db, false⟩
    else ⟨⟨200, "worker registered"⟩, execInsertWorkerUpsert db now id req.name req.ty, true⟩

/-- WorkerUpdateHandler (internal/handlers/worker.go): parse UUID, then insert
into worker_updates with no status validation; any storage error becomes a
500 "failed to update worker status". -/
def workerUpdateHandler (db : DB) (now : Nat) (req : WorkerUpdateRequest) :
    HandlerOut :=
  match uuidParse req.id with
  | none => ⟨⟨400, "invalid UUID"⟩, db, false⟩
  | some id =>
    match execInsertUpdate db now id req.status req.message with
    | .error _ => ⟨⟨500, "failed to update worker status"⟩, db, true⟩
    | .ok db2 => ⟨⟨200, "worker status updated"⟩, db2, true⟩

/-- WorkerHeartbeatHandler (internal/handlers/worker.go): parse UUID, then
insert into worker_heartbeats with no status validation; any storage error
becomes a 500 "failed to insert heartbeat". -/
def workerHeartbeatHandler (db : DB) (now : Nat) (req : WorkerHeartbeatRequest) :
    HandlerOut :=
  match uuidParse req.id with
  | none => ⟨⟨400, "invalid UUID"⟩, db, false⟩
  | some id =>
    match execInsertHeartbeat db now id req.status with
    | .error _ => ⟨⟨500, "failed to insert heartbeat"⟩, db, true⟩
    | .ok db2 => ⟨⟨200, "heartbeat recorded"⟩, db2, true⟩

/-- AgentRegisterHandler (Agent variant): parse UUID, require non-empty name,
require the type to be in the allow-list, then a plain INSERT into agents; a
unique violation (id already registered) is surfaced as 409 Conflict
"Agent ID already exists", any other storage error as 500. -/
def agentRegisterHandler (allowedTypes : List String) (db : DB) (now : Nat)
    (req : WorkerRegisterRequest) : HandlerOut :=
  match uuidParse req.id with
  | none => ⟨⟨400, "invalid UUID"⟩, db, false⟩
  | some id =>
    if req.name = "" then ⟨⟨400, "name is required"⟩, db, false⟩
    else if ¬ allowedTypes.contains req.ty then ⟨⟨400, "invalid Agent type"⟩, db, false⟩
    else
      match execInsertAgentRow db now id req.name req.ty with
      | .error .uniqueViolation => ⟨⟨409, "Agent ID already exists"⟩, db, true⟩
      | .error _ => ⟨⟨500, "failed to register Agent"⟩, db, true⟩
      | .ok db2 => ⟨⟨200, "Agent registered"⟩, db2, true⟩

/-- AgentUpdateHandler (Agent variant): parse UUID, require a non-empty status
(no vocabulary check), then insert into agent_updates; any storage error
becomes a 500 "failed to update Agent status". -/
def agentUpdateHandler (db : DB) (now : Nat) (req : WorkerUpdateRequest) :
    HandlerOut :=
  match uuidParse req.id with
  | none => ⟨⟨400, "invalid UUID"⟩, db, false⟩
  | some id =>
    if req.status = "" then ⟨⟨400, "status is required"⟩, db, false⟩
    else
      match execInsertUpdate db now id req.status req.message with
      | .error _ => ⟨⟨500, "failed to update Agent status"⟩, db, true⟩
      | .ok db2 => ⟨⟨200, "Agent status updated"⟩, db2, true⟩

/-- AgentHeartbeatHandler (Agent variant): parse UUID, require a non-empty
status, require the status to be in allowedAgentStatus, then insert into
agent_heartbeats; any storage error becomes a 500. -/
def agentHeartbeatHandler (db : DB) (now : Nat) (req : WorkerHeartbeatRequest) :
    HandlerOut :=
  match uuidParse req.id with
  | none => ⟨⟨400, "invalid UUID"⟩, db, false⟩
  | some id =>
    if req.status = "" then ⟨⟨400, "status is required"⟩, db, false⟩
    else if ¬ allowedAgentStatus req.status then ⟨⟨400, "invalid status value"⟩, db, false⟩
    else
      match execInsertHeartbeat db now id req.status with
      | .error _ => ⟨⟨500, "failed to insert heartbeat"⟩, db, true⟩
      | .ok db2 => ⟨⟨200, "heartbeat recorded"⟩, db2, true⟩

/-- One server-side request, for reasoning about every database state the
ingestion API can reach.  Covers all six handlers of the two variants. -/
inductive Op
  | wReg (now : Nat) (req : WorkerRegisterRequest)
  | wUpd (now : Nat) (req : WorkerUpdateRequest)
  | wHb (now : Nat) (req : WorkerHeartbeatRequest)
  | aReg (allowedTypes : List String) (now : Nat) (req : WorkerRegisterRequest)
  | aUpd (now : Nat) (req : WorkerUpdateRequest)
  | aHb (now : Nat) (req : WorkerHeartbeatRequest)
  deriving Repr

/-- The database after handling one request. -/
def applyOp (db : DB) (op : Op) : DB :=
  match op with
  | .wReg now req => (workerRegisterHandler db now req).db
  | .wUpd now req => (workerUpdateHandler db now req).db
  | .wHb now req => (workerHeartbeatHandler db now req).db
  | .aReg ts now req => (agentRegisterHandler ts db now req).db
  | .aUpd now req => (agentUpdateHandler db now req).db
  | .aHb now req => (agentHeartbeatHandler db now req).db

/-- The database reached from the empty store by a sequence of requests. -/
def runOps (ops : List Op) : DB :=
  ops.foldl applyOp emptyDB

/-- Every persisted event's status belongs to the closed vocabulary. -/
def dbStatusesValid (db : DB) : Bool :=
  db.workerUpdates.all (fun e => allowedAgentStatus e.status) &&
  db.workerHeartbeats.all (fun e => allowedAgentStatus e.status)

/-! ## Client side: the heartbeat agent (package agent) -/

/-- The client-side Agent value: identity, target server, heartbeat interval
(time-units: seconds), and the stop channel, modelled by whether it has been
closed. -/
structure GoAgent where
  id : String
  name : String
  ty : String
  server : String
  heartbeat : Nat
  stopChanClosed : Bool
  deriving DecidableEq, Repr

/-- agent.New: log.Fatal when PULSE_SERVER_URL is unset (empty), default the
interval to 60 seconds, override it only when PULSE_HEARTBEAT_INTERVAL is
set and time.ParseDuration accepts it.  time.ParseDuration is an external
library function, taken as a parameter; a fresh uuid.New() value likewise. -/
def agentNew (name ty : String) (pulseServerUrl pulseHeartbeatInterval : String)
    (parseDuration : String → Option Nat) (freshId : String) : Option GoAgent :=
  if pulseServerUrl = "" then none
  else
    let interval : Nat :=
      if pulseHeartbeatInterval = "" then 60
      else
        match parseDuration pulseHeartbeatInterval with
        | some parsed => parsed
        | none => 60
    some ⟨freshId, name, ty, pulseServerUrl, interval, false⟩

/-- What the HTTP round trip of one client call did: the request never left
(connection failure), or the server answered with a status code and a body
that does or does not decode as the expected JSON. -/
inductive HttpOutcome
  | transportFailure
  | response (statusCode : Nat) (bodyDecodes : Bool)
  deriving DecidableEq, Repr

/-- The errors a client call can return. -/
inductive ClientError
  | marshalFailure
  | postFailure
  | statusNotOk (code : Nat)
  | decodeFailure
  deriving DecidableEq, Repr

/-- Agent.post: marshal the payload, POST it, then fail unless the response
status is exactly 200.  The response body is not read.  (Register, Update and
Heartbeat all call post with a plain struct of strings, whose marshalling
always succeeds, so they pass marshalOk = true.) -/
def post (marshalOk : Bool) (outcome : HttpOutcome) : Except ClientError Unit :=
  if ¬ marshalOk then .error .marshalFailure
  else
    match outcome with
    | .transportFailure => .error .postFailure
    | .response code _ =>
      if code ≠ 200 then .error (.statusNotOk code) else .ok ()

/-- Agent.Register / Agent.Update / Agent.Heartbeat: each marshals a plain
string struct (always succeeds) and delegates to post. -/
def agentOneShotCall (outcome : HttpOutcome) : Except ClientError Unit :=
  post true outcome

/-- Client.RegisterWorker (agent/client.go): POST, then decode the response
body as ApiResponse BEFORE checking the status code; a body that fails to
decode is an error even on a 200 response. -/
def registerWorker (outcome : HttpOutcome) : Except ClientError Unit :=
  match outcome with
  | .transportFailure => .error .postFailure
  | .response code dec =>
    if ¬ dec then .error .decodeFailure
    else if code ≠ 200 then .error (.statusNotOk code) else .ok ()

/-! ## The heartbeat loop (StartHeartbeatLoop) -/

/-- One event the loop's select can wake on: a ticker tick (with the outcome
of the Heartbeat call it triggers) or the stop channel becoming ready. -/
inductive LoopEvent
  | tick (heartbeatOk : Bool)
  | stopSignal
  deriving DecidableEq, Repr

/-- The log lines the loop emits. -/
inductive LogEntry
  | heartbeatFailure
  | heartbeatSent
  | loopStopped
  deriving DecidableEq, Repr

/-- The observable state of the loop goroutine: whether the for/select loop
is still running, the log lines produced, and how many Heartbeat calls were
issued. -/
structure LoopState where
  running : Bool
  logs : List LogEntry
  heartbeatCalls : Nat
  deriving DecidableEq, Repr

def initialLoopState : LoopState := ⟨true, [], 0⟩

/-- One iteration of the for/select body.  On a tick the loop issues a
Heartbeat call and logs failure or success, then continues; on the stop
signal it logs and returns.  After the loop has returned, events change
nothing. -/
def stepLoop (s : LoopState) (e : LoopEvent) : LoopState :=
  if ¬ s.running then s
  else
    match e with
    | .tick ok =>
      { s with heartbeatCalls := s.heartbeatCalls + 1,
               logs := s.logs ++ [if ok then .heartbeatSent else .heartbeatFailure] }
    | .stopSignal => { s with running := false, logs := s.logs ++ [.loopStopped] }

/-- The loop state after a started loop has observed a sequence of events. -/
def runLoop (events : List LoopEvent) : LoopState :=
  events.foldl stepLoop initialLoopState

/-! ## StopHeartbeatLoop -/

/-- Go runtime panics this embedding can surface. -/
inductive GoPanic
  | closeOfClosedChannel
  deriving DecidableEq, Repr

/-- StopHeartbeatLoop: close(a.stopChan).  Closing a channel that is already
closed panics in the Go runtime. -/
def stopHeartbeatLoop (a : GoAgent) : Except GoPanic GoAgent :=
  if a.stopChanClosed then .error .closeOfClosedChannel
  else .ok { a with stopChanClosed := true }

/-! ## Heartbeat-loop lemmas -/

theorem stepLoop_not_running (s : LoopState) (h : s.running = false) (e : LoopEvent) :
    stepLoop s e = s := by
  simp [stepLoop, h]

theorem foldl_stepLoop_not_running (l : List LoopEvent) (s : LoopState)
    (h : s.running = false) : l.foldl stepLoop s = s := by
  induction l with
  | nil => rfl
  | cons e t ih => rw [List.foldl_cons, stepLoop_not_running s h e]; exact ih

theorem stepLoop_stop_running (s : LoopState) :
    (stepLoop s LoopEvent.stopSignal).running = false := by
  by_cases h : s.running <;> simp [stepLoop, h]

theorem runLoop_all_failures_aux (n : Nat) (s : LoopState) (h : s.running = true) :
    ((List.replicate n (LoopEvent.tick false)).foldl stepLoop s).running = true ∧
    ((List.replicate n (LoopEvent.tick false)).foldl stepLoop s).logs =
      s.logs ++ List.replicate n LogEntry.heartbeatFailure := by
  induction n generalizing s with
  | zero => simpa using h
  | succ n ih =>
    rw [List.replicate_succ, List.foldl_cons]
    have h2 : (stepLoop s (.tick false)).running = true := by simp [stepLoop, h]
    obtain ⟨hr, hl⟩ := ih (stepLoop s (.tick false)) h2
    refine ⟨hr, ?_⟩
    rw [hl]
    simp [stepLoop, h, List.replicate_succ]

/-- C6: while the heartbeat loop is running, every failed heartbeat tick is
logged and the loop continues: after n failing ticks the loop is still
running and exactly n failure log lines were produced. -/
theorem c6_loop_resilience (n : Nat) :
    (runLoop (List.replicate n (LoopEvent.tick false))).running = true ∧
    (runLoop (List.replicate n (LoopEvent.tick false))).logs =
      List.replicate n LogEntry.heartbeatFailure := by
  have h := runLoop_all_failures_aux n initialLoopState rfl
  simpa [runLoop, initialLoopState] using h

/-- C7: once the loop observes the stop signal it exits, and the events that
arrive afterwards change nothing: the whole loop state (in particular the
number of heartbeat calls issued) is the same as if the trace had ended at
the stop signal.  Ticks that occur before the stop signal is observed (the
grace tick of an in-flight iteration) are part of the prefix. -/
theorem c7_stop_semantics (pre post : List LoopEvent) :
    runLoop (pre ++ LoopEvent.stopSignal :: post) =
      runLoop (pre ++ [LoopEvent.stopSignal]) ∧
    (runLoop (pre ++ LoopEvent.stopSignal :: post)).heartbeatCalls =
      (runLoop (pre ++ [LoopEvent.stopSignal])).heartbeatCalls := by
  have key : runLoop (pre ++ LoopEvent.stopSignal :: post) =
      runLoop (pre ++ [LoopEvent.stopSignal]) := by
    unfold runLoop
    rw [List.foldl_append, List.foldl_append]
    simp only [List.foldl_cons, List.foldl_nil]
    exact foldl_stepLoop_not_running post _ (stepLoop_stop_running _)
  exact ⟨key, by rw [key]⟩

/-- C8 counterexample: the server responded with HTTP 200, yet
Client.RegisterWorker returns an error, because the response body fails to
decode (the decode happens before the status check).  This refutes
"success if and only if the server responded with HTTP 200". -/
theorem c8_counterexample :
    registerWorker (HttpOutcome.response 200 false) =
      .error ClientError.decodeFailure := rfl

/-- C8 amended: the Agent's one-shot calls (Register/Update/Heartbeat via
post) succeed exactly when the server responded 200, and surface transport
failures and non-200 statuses as errors; Client.RegisterWorker additionally
requires the response body to decode, so it succeeds exactly when the server
responded 200 with a decodable body. -/
theorem c8_client_error_surfacing (st : Nat) (dec : Bool) :
    ((agentOneShotCall (HttpOutcome.response st dec) = .ok ()) ↔ st = 200) ∧
    (agentOneShotCall HttpOutcome.transportFailure = .error ClientError.postFailure) ∧
    ((registerWorker (HttpOutcome.response st dec) = .ok ()) ↔ (st = 200 ∧ dec = true)) ∧
    (registerWorker HttpOutcome.transportFailure = .error ClientError.postFailure) := by
  refine ⟨?_, rfl, ?_, rfl⟩
  · unfold agentOneShotCall post
    by_cases h : st = 200 <;> simp [h]
  · unfold registerWorker
    by_cases h : st = 200 <;> by_cases hd : dec <;> simp [h, hd]

/-- C9: an Agent constructed with PULSE_HEARTBEAT_INTERVAL unset (empty) or
unparsable uses the default heartbeat interval of 60 seconds. -/
theorem c9_default_interval (name ty server env freshId : String)
    (parseDuration : String → Option Nat)
    (hs : server ≠ "") (h : env = "" ∨ parseDuration env = none) :
    ∃ a, agentNew name ty server env parseDuration freshId = some a ∧
      a.heartbeat = 60 := by
  unfold agentNew
  rw [if_neg hs]
  refine ⟨_, rfl, ?_⟩
  by_cases he : env = ""
  · simp [he]
  · rcases h with h | h
    · exact absurd h he
    · simp [he, h]

theorem c9_default_interval_witness :
    ∃ a, agentNew "w1" "default" "http://pulse" "" (fun _ => none)
        "11111111-1111-1111-1111-111111111111" = some a ∧ a.heartbeat = 60 :=
  c9_default_interval "w1" "default" "http://pulse" "" "11111111-1111-1111-1111-111111111111"
    (fun _ => none) (by decide) (Or.inl rfl)

/-- C10: on an Agent whose stop channel is not yet closed, the first
StopHeartbeatLoop succeeds and closes the channel, and a second
StopHeartbeatLoop on the same Agent panics (close of a closed channel), so
stop is safe at most once per Agent. -/
theorem c10_double_stop_panics (a : GoAgent) (h : a.stopChanClosed = false) :
    ∃ a2, stopHeartbeatLoop a = .ok a2 ∧
      stopHeartbeatLoop a2 = .error GoPanic.closeOfClosedChannel := by
  refine ⟨{ a with stopChanClosed := true }, ?_, ?_⟩
  · simp [stopHeartbeatLoop, h]
  · simp [stopHeartbeatLoop]

theorem c10_double_stop_panics_witness :
    ∃ a2, stopHeartbeatLoop ⟨"11111111-1111-1111-1111-111111111111", "w1",
        "default", "http://pulse", 60, false⟩ = .ok a2 ∧
      stopHeartbeatLoop a2 = .error GoPanic.closeOfClosedChannel :=
  c10_double_stop_panics ⟨"11111111-1111-1111-1111-111111111111", "w1",
    "default", "http://pulse", 60, false⟩ rfl

/-- C3: at the input its own test TestWorkerRegisterHandler_InvalidType sends
(a valid UUID, a non-empty name, and the disallowed type "invalid-type"),
WorkerRegisterHandler answers 200 and persists the row with the disallowed
type, while the test expects 400; the Agent-variant register handler rejects
the same input with 400 "invalid Agent type" before touching storage. -/
theorem c3_worker_register_skips_type_validation :
    (workerRegisterHandler emptyDB 1
        ⟨"123e4567-e89b-12d3-a456-426614174000", "test-worker", "invalid-type"⟩).resp.status
      = 200 ∧
    (workerRegisterHandler emptyDB 1
        ⟨"123e4567-e89b-12d3-a456-426614174000", "test-worker", "invalid-type"⟩).db.workers
      = [⟨"123e4567-e89b-12d3-a456-426614174000", "test-worker", "invalid-type", 1⟩] ∧
    (agentRegisterHandler allowedAgentTypesDefault emptyDB 1
        ⟨"123e4567-e89b-12d3-a456-426614174000", "test-worker", "invalid-type"⟩).resp
      = ⟨400, "invalid Agent type"⟩ ∧
    (agentRegisterHandler allowedAgentTypesDefault emptyDB 1
        ⟨"123e4567-e89b-12d3-a456-426614174000", "test-worker", "invalid-type"⟩).storageAccessed
      = false := by
  refine ⟨?_, ?_, ?_, ?_⟩ <;> decide

/-! ## Upsert lemmas for registration -/

theorem filter_map_upsert_nil (t : List WorkerRow) (u name ty : String) (now : Nat)
    (h : t.filter (fun r => r.id == u) = []) :
    (t.map (fun r =>
        if r.id == u then { r with name := name, ty := ty, time := now } else r)).filter
      (fun r => r.id == u) = [] := by
  induction t with
  | nil => rfl
  | cons a t ih =>
    rw [List.filter_cons] at h
    by_cases ha : a.id == u
    · simp [ha] at h
    · simp only [List.map_cons, List.filter_cons, if_neg ha]
      simp only [ha, Bool.false_eq_true, if_false] at h ⊢
      exact ih h

theorem filter_map_upsert (l : List WorkerRow) (u name ty : String) (now : Nat)
    (hcount : (l.filter (fun r => r.id == u)).length ≤ 1)
    (hany : l.any (fun r => r.id == u) = true) :
    (l.map (fun r =>
        if r.id == u then { r with name := name, ty := ty, time := now } else r)).filter
      (fun r => r.id == u) = [⟨u, name, ty, now⟩] := by
  induction l with
  | nil => simp at hany
  | cons a t ih =>
    by_cases ha : a.id == u
    · have haeq : a.id = u := eq_of_beq ha
      have htnil : t.filter (fun r => r.id == u) = [] := by
        rw [List.filter_cons, if_pos ha] at hcount
        simp only [List.length_cons] at hcount
        have h0 : (t.filter (fun r => r.id == u)).length = 0 := by omega
        exact List.length_eq_zero.mp h0
      simp only [List.map_cons, if_pos ha, List.filter_cons]
      rw [filter_map_upsert_nil t u name ty now htnil, haeq]
    · have hany2 : t.any (fun r => r.id == u) = true := by
        simpa [ha] using hany
      have hcount2 : (t.filter (fun r => r.id == u)).length ≤ 1 := by
        rw [List.filter_cons, if_neg ha] at hcount
        exact hcount
      simp only [List.map_cons, if_neg ha, List.filter_cons]
      exact ih hcount2 hany2

theorem workerRegister_upsert (db : DB) (now : Nat) (req : WorkerRegisterRequest)
    (u : String) (hu : uuidParse req.id = some u) (hn : req.name ≠ "")
    (hcount : (db.workers.filter (fun r => r.id == u)).length ≤ 1) :
    (workerRegisterHandler db now req).resp.status = 200 ∧
    (workerRegisterHandler db now req).db.workers.filter (fun r => r.id == u) =
      [⟨u, req.name, req.ty, now⟩] ∧
    (workerRegisterHandler db now req).db.workerUpdates = db.workerUpdates ∧
    (workerRegisterHandler db now req).db.workerHeartbeats = db.workerHeartbeats := by
  have hstep : workerRegisterHandler db now req =
      ⟨⟨200, "worker registered"⟩, execInsertWorkerUpsert db now u req.name req.ty, true⟩ := by
    unfold workerRegisterHandler
    simp only [hu, if_neg hn]
  have hup : (execInsertWorkerUpsert db now u req.name req.ty).workers.filter
      (fun r => r.id == u) = [⟨u, req.name, req.ty, now⟩] := by
    unfold execInsertWorkerUpsert DB.hasWorker
    by_cases hany : db.workers.any (fun r => r.id == u)
    · rw [if_pos hany]
      exact filter_map_upsert db.workers u req.name req.ty now hcount hany
    · rw [if_neg (by simpa using hany)]
      have hnil : db.workers.filter (fun r => r.id == u) = [] := by
        rw [List.filter_eq_nil_iff]
        intro r hr hcontra
        exact hany (List.any_eq_true.mpr ⟨r, hr, hcontra⟩)
      show (db.workers ++ [(⟨u, req.name, req.ty, now⟩ : WorkerRow)]).filter
        (fun r => r.id == u) = _
      rw [List.filter_append, hnil, List.nil_append]
      simp
  have hupd : (execInsertWorkerUpsert db now u req.name req.ty).workerUpdates
      = db.workerUpdates := by
    unfold execInsertWorkerUpsert
    split <;> rfl
  have hhb : (execInsertWorkerUpsert db now u req.name req.ty).workerHeartbeats
      = db.workerHeartbeats := by
    unfold execInsertWorkerUpsert
    split <;> rfl
  rw [hstep]
  exact ⟨rfl, hup, hupd, hhb⟩

/-- C1 counterexample: the Agent-variant register handler does not treat
re-registration as an upsert: registering the same id a second time (with
valid fields) is surfaced as 409 Conflict, and the stored record keeps the
fields of the FIRST call, refuting "a second Register succeeds and the
record's mutable fields match the most recent call". -/
theorem c1_counterexample :
    (agentRegisterHandler allowedAgentTypesDefault
        (agentRegisterHandler allowedAgentTypesDefault emptyDB 1
          ⟨"11111111-1111-1111-1111-111111111111", "w1", "default"⟩).db 2
        ⟨"11111111-1111-1111-1111-111111111111", "w2", "default"⟩).resp
      = ⟨409, "Agent ID already exists"⟩ ∧
    (agentRegisterHandler allowedAgentTypesDefault
        (agentRegisterHandler allowedAgentTypesDefault emptyDB 1
          ⟨"11111111-1111-1111-1111-111111111111", "w1", "default"⟩).db 2
        ⟨"11111111-1111-1111-1111-111111111111", "w2", "default"⟩).db.workers
      = [⟨"11111111-1111-1111-1111-111111111111", "w1", "default", 1⟩] := by
  constructor <;> decide

/-- C1 amended: registration through WorkerRegisterHandler is an idempotent
upsert: starting from a store holding at most one identity row for the id,
two successive Register calls for the same id both succeed (no conflict is
ever surfaced), and afterwards exactly one identity row exists for that id,
carrying the name and type of the most recent call.  The Agent-variant
register handler instead surfaces the duplicate id as 409 Conflict and keeps
the earlier fields (see the counterexample). -/
theorem c1_idempotent_registration (db : DB) (now1 now2 : Nat)
    (req1 req2 : WorkerRegisterRequest) (u : String)
    (hu1 : uuidParse req1.id = some u) (hu2 : uuidParse req2.id = some u)
    (hn1 : req1.name ≠ "") (hn2 : req2.name ≠ "")
    (hcount : (db.workers.filter (fun r => r.id == u)).length ≤ 1) :
    (workerRegisterHandler db now1 req1).resp.status = 200 ∧
    (workerRegisterHandler (workerRegisterHandler db now1 req1).db now2 req2).resp.status
      = 200 ∧
    (workerRegisterHandler (workerRegisterHandler db now1 req1).db now2 req2).db.workers.filter
      (fun r => r.id == u) = [⟨u, req2.name, req2.ty, now2⟩] := by
  obtain ⟨h1, h2, _, _⟩ := workerRegister_upsert db now1 req1 u hu1 hn1 hcount
  have hcount2 :
      ((workerRegisterHandler db now1 req1).db.workers.filter (fun r => r.id == u)).length ≤ 1 := by
    rw [h2]; simp
  obtain ⟨h1b, h2b, _, _⟩ :=
    workerRegister_upsert (workerRegisterHandler db now1 req1).db now2 req2 u hu2 hn2 hcount2
  exact ⟨h1, h1b, h2b⟩

theorem c1_idempotent_registration_witness :
    (workerRegisterHandler emptyDB 1
        ⟨"11111111-1111-1111-1111-111111111111", "w1", "default"⟩).resp.status = 200 ∧
    (workerRegisterHandler (workerRegisterHandler emptyDB 1
        ⟨"11111111-1111-1111-1111-111111111111", "w1", "default"⟩).db 2
        ⟨"11111111-1111-1111-1111-111111111111", "w2", "bot"⟩).resp.status = 200 ∧
    (workerRegisterHandler (workerRegisterHandler emptyDB 1
        ⟨"11111111-1111-1111-1111-111111111111", "w1", "default"⟩).db 2
        ⟨"11111111-1111-1111-1111-111111111111", "w2", "bot"⟩).db.workers.filter
      (fun r => r.id == "11111111-1111-1111-1111-111111111111")
      = [⟨"11111111-1111-1111-1111-111111111111", "w2", "bot", 2⟩] :=
  c1_idempotent_registration emptyDB 1 2
    ⟨"11111111-1111-1111-1111-111111111111", "w1", "default"⟩
    ⟨"11111111-1111-1111-1111-111111111111", "w2", "bot"⟩
    "11111111-1111-1111-1111-111111111111"
    (by decide) (by decide) (by decide) (by decide) (by decide)

/-! ## Characterization lemmas for the storage operations and handlers -/

theorem execInsertUpdate_invalid (db : DB) (now : Nat) (wid s msg : String)
    (hs : allowedAgentStatus s = false) :
    execInsertUpdate db now wid s msg = .error .invalidEnumValue := by
  simp [execInsertUpdate, hs]

theorem execInsertUpdate_fk (db : DB) (now : Nat) (wid s msg : String)
    (hs : allowedAgentStatus s = true) (hw : db.hasWorker wid = false) :
    execInsertUpdate db now wid s msg = .error .fkViolation := by
  simp [execInsertUpdate, hs, hw]

theorem execInsertUpdate_ok (db : DB) (now : Nat) (wid s msg : String)
    (hs : allowedAgentStatus s = true) (hw : db.hasWorker wid = true) :
    execInsertUpdate db now wid s msg =
      .ok { db with workerUpdates := db.workerUpdates ++ [⟨wid, s, some msg, now⟩] } := by
  simp [execInsertUpdate, hs, hw]

theorem execInsertHeartbeat_invalid (db : DB) (now : Nat) (wid s : String)
    (hs : allowedAgentStatus s = false) :
    execInsertHeartbeat db now wid s = .error .invalidEnumValue := by
  simp [execInsertHeartbeat, hs]

theorem execInsertHeartbeat_fk (db : DB) (now : Nat) (wid s : String)
    (hs : allowedAgentStatus s = true) (hw : db.hasWorker wid = false) :
    execInsertHeartbeat db now wid s = .error .fkViolation := by
  simp [execInsertHeartbeat, hs, hw]

theorem execInsertHeartbeat_ok (db : DB) (now : Nat) (wid s : String)
    (hs : allowedAgentStatus s = true) (hw : db.hasWorker wid = true) :
    execInsertHeartbeat db now wid s =
      .ok { db with workerHeartbeats := db.workerHeartbeats ++ [⟨wid, s, none, now⟩] } := by
  simp [execInsertHeartbeat, hs, hw]

theorem workerRegisterHandler_parse_none (db : DB) (now : Nat)
    (req : WorkerRegisterRequest) (hu : uuidParse req.id = none) :
    workerRegisterHandler db now req = ⟨⟨400, "invalid UUID"⟩, db, false⟩ := by
  simp only [workerRegisterHandler, hu]

theorem workerRegisterHandler_empty_name (db : DB) (now : Nat)
    (req : WorkerRegisterRequest) (u : String) (hu : uuidParse req.id = some u)
    (hn : req.name = "") :
    workerRegisterHandler db now req = ⟨⟨400, "name is required"⟩, db, false⟩ := by
  simp only [workerRegisterHandler, hu, if_pos hn]

theorem workerRegisterHandler_success (db : DB) (now : Nat)
    (req : WorkerRegisterRequest) (u : String) (hu : uuidParse req.id = some u)
    (hn : req.name ≠ "") :
    workerRegisterHandler db now req =
      ⟨⟨200, "worker registered"⟩, execInsertWorkerUpsert db now u req.name req.ty, true⟩ := by
  simp only [workerRegisterHandler, hu, if_neg hn]

theorem execInsertAgentRow_error_inv (db : DB) (now : Nat) (id name ty : String)
    (e : PgError) (h : execInsertAgentRow db now id name ty = .error e) :
    e = .uniqueViolation ∧ db.hasWorker id = true := by
  unfold execInsertAgentRow at h
  by_cases hw : db.hasWorker id
  · simp only [hw, if_true, Except.error.injEq] at h
    exact ⟨h.symm, hw⟩
  · simp [hw] at h

theorem agentRegisterHandler_conflict (ts : List String) (db : DB) (now : Nat)
    (req : WorkerRegisterRequest) (u : String) (hu : uuidParse req.id = some u)
    (hn : req.name ≠ "") (ht : ts.contains req.ty = true)
    (he : execInsertAgentRow db now u req.name req.ty = .error .uniqueViolation) :
    agentRegisterHandler ts db now req = ⟨⟨409, "Agent ID already exists"⟩, db, true⟩ := by
  have hcond : ¬ ¬ (ts.contains req.ty = true) := fun hc => hc ht
  simp only [agentRegisterHandler, hu, if_neg hn, if_neg hcond, he]

theorem agentRegisterHandler_ok (ts : List String) (db db2 : DB) (now : Nat)
    (req : WorkerRegisterRequest) (u : String) (hu : uuidParse req.id = some u)
    (hn : req.name ≠ "") (ht : ts.contains req.ty = true)
    (he : execInsertAgentRow db now u req.name req.ty = .ok db2) :
    agentRegisterHandler ts db now req = ⟨⟨200, "Agent registered"⟩, db2, true⟩ := by
  have hcond : ¬ ¬ (ts.contains req.ty = true) := fun hc => hc ht
  simp only [agentRegisterHandler, hu, if_neg hn, if_neg hcond, he]

theorem workerUpdateHandler_parse_none (db : DB) (now : Nat)
    (req : WorkerUpdateRequest) (hu : uuidParse req.id = none) :
    workerUpdateHandler db now req = ⟨⟨400, "invalid UUID"⟩, db, false⟩ := by
  simp only [workerUpdateHandler, hu]

theorem workerUpdateHandler_exec_error (db : DB) (now : Nat)
    (req : WorkerUpdateRequest) (u : String) (e : PgError)
    (hu : uuidParse req.id = some u)
    (he : execInsertUpdate db now u req.status req.message = .error e) :
    workerUpdateHandler db now req = ⟨⟨500, "failed to update worker status"⟩, db, true⟩ := by
  simp only [workerUpdateHandler, hu, he]

theorem workerUpdateHandler_exec_ok (db db2 : DB) (now : Nat)
    (req : WorkerUpdateRequest) (u : String)
    (hu : uuidParse req.id = some u)
    (he : execInsertUpdate db now u req.status req.message = .ok db2) :
    workerUpdateHandler db now req = ⟨⟨200, "worker status updated"⟩, db2, true⟩ := by
  simp only [workerUpdateHandler, hu, he]

theorem workerHeartbeatHandler_parse_none (db : DB) (now : Nat)
    (req : WorkerHeartbeatRequest) (hu : uuidParse req.id = none) :
    workerHeartbeatHandler db now req = ⟨⟨400, "invalid UUID"⟩, db, false⟩ := by
  simp only [workerHeartbeatHandler, hu]

theorem workerHeartbeatHandler_exec_error (db : DB) (now : Nat)
    (req : WorkerHeartbeatRequest) (u : String) (e : PgError)
    (hu : uuidParse req.id = some u)
    (he : execInsertHeartbeat db now u req.status = .error e) :
    workerHeartbeatHandler db now req = ⟨⟨500, "failed to insert heartbeat"⟩, db, true⟩ := by
  simp only [workerHeartbeatHandler, hu, he]

theorem workerHeartbeatHandler_exec_ok (db db2 : DB) (now : Nat)
    (req : WorkerHeartbeatRequest) (u : String)
    (hu : uuidParse req.id = some u)
    (he : execInsertHeartbeat db now u req.status = .ok db2) :
    workerHeartbeatHandler db now req = ⟨⟨200, "heartbeat recorded"⟩, db2, true⟩ := by
  simp only [workerHeartbeatHandler, hu, he]

theorem agentRegisterHandler_parse_none (ts : List String) (db : DB) (now : Nat)
    (req : WorkerRegisterRequest) (hu : uuidParse req.id = none) :
    agentRegisterHandler ts db now req = ⟨⟨400, "invalid UUID"⟩, db, false⟩ := by
  simp only [agentRegisterHandler, hu]

theorem agentRegisterHandler_empty_name (ts : List String) (db : DB) (now : Nat)
    (req : WorkerRegisterRequest) (u : String) (hu : uuidParse req.id = some u)
    (hn : req.name = "") :
    agentRegisterHandler ts db now req = ⟨⟨400, "name is required"⟩, db, false⟩ := by
  simp only [agentRegisterHandler, hu, if_pos hn]

theorem agentRegisterHandler_bad_type (ts : List String) (db : DB) (now : Nat)
    (req : WorkerRegisterRequest) (u : String) (hu : uuidParse req.id = some u)
    (hn : req.name ≠ "") (ht : ts.contains req.ty = false) :
    agentRegisterHandler ts db now req = ⟨⟨400, "invalid Agent type"⟩, db, false⟩ := by
  have hcond : ¬ (ts.contains req.ty = true) := by simpa using ht
  simp only [agentRegisterHandler, hu, if_neg hn, if_pos hcond]

theorem agentUpdateHandler_parse_none (db : DB) (now : Nat)
    (req : WorkerUpdateRequest) (hu : uuidParse req.id = none) :
    agentUpdateHandler db now req = ⟨⟨400, "invalid UUID"⟩, db, false⟩ := by
  simp only [agentUpdateHandler, hu]

theorem agentUpdateHandler_empty_status (db : DB) (now : Nat)
    (req : WorkerUpdateRequest) (u : String) (hu : uuidParse req.id = some u)
    (hs : req.status = "") :
    agentUpdateHandler db now req = ⟨⟨400, "status is required"⟩, db, false⟩ := by
  simp only [agentUpdateHandler, hu, if_pos hs]

theorem agentUpdateHandler_exec_error (db : DB) (now : Nat)
    (req : WorkerUpdateRequest) (u : String) (e : PgError)
    (hu : uuidParse req.id = some u) (hs : req.status ≠ "")
    (he : execInsertUpdate db now u req.status req.message = .error e) :
    agentUpdateHandler db now req = ⟨⟨500, "failed to update Agent status"⟩, db, true⟩ := by
  simp only [agentUpdateHandler, hu, if_neg hs, he]

theorem agentUpdateHandler_exec_ok (db db2 : DB) (now : Nat)
    (req : WorkerUpdateRequest) (u : String)
    (hu : uuidParse req.id = some u) (hs : req.status ≠ "")
    (he : execInsertUpdate db now u req.status req.message = .ok db2) :
    agentUpdateHandler db now req = ⟨⟨200, "Agent status updated"⟩, db2, true⟩ := by
  simp only [agentUpdateHandler, hu, if_neg hs, he]

theorem agentHeartbeatHandler_parse_none (db : DB) (now : Nat)
    (req : WorkerHeartbeatRequest) (hu : uuidParse req.id = none) :
    agentHeartbeatHandler db now req = ⟨⟨400, "invalid UUID"⟩, db, false⟩ := by
  simp only [agentHeartbeatHandler, hu]

theorem agentHeartbeatHandler_empty_status (db : DB) (now : Nat)
    (req : WorkerHeartbeatRequest) (u : String) (hu : uuidParse req.id = some u)
    (hs : req.status = "") :
    agentHeartbeatHandler db now req = ⟨⟨400, "status is required"⟩, db, false⟩ := by
  simp only [agentHeartbeatHandler, hu, if_pos hs]

theorem agentHeartbeatHandler_bad_status (db : DB) (now : Nat)
    (req : WorkerHeartbeatRequest) (u : String) (hu : uuidParse req.id = some u)
    (hne : req.status ≠ "") (hs : allowedAgentStatus req.status = false) :
    agentHeartbeatHandler db now req = ⟨⟨400, "invalid status value"⟩, db, false⟩ := by
  simp only [agentHeartbeatHandler, hu, if_neg hne]
  simp [hs]

theorem agentHeartbeatHandler_exec_error (db : DB) (now : Nat)
    (req : WorkerHeartbeatRequest) (u : String) (e : PgError)
    (hu : uuidParse req.id = some u) (hne : req.status ≠ "")
    (hs : allowedAgentStatus req.status = true)
    (he : execInsertHeartbeat db now u req.status = .error e) :
    agentHeartbeatHandler db now req = ⟨⟨500, "failed to insert heartbeat"⟩, db, true⟩ := by
  simp only [agentHeartbeatHandler, hu, if_neg hne]
  simp [hs, he]

theorem agentHeartbeatHandler_exec_ok (db db2 : DB) (now : Nat)
    (req : WorkerHeartbeatRequest) (u : String)
    (hu : uuidParse req.id = some u) (hne : req.status ≠ "")
    (hs : allowedAgentStatus req.status = true)
    (he : execInsertHeartbeat db now u req.status = .ok db2) :
    agentHeartbeatHandler db now req = ⟨⟨200, "heartbeat recorded"⟩, db2, true⟩ := by
  simp only [agentHeartbeatHandler, hu, if_neg hne]
  simp [hs, he]

/-- A status in the closed vocabulary is never the empty string. -/
theorem allowedAgentStatus_ne_empty (s : String) (hs : allowedAgentStatus s = true) :
    s ≠ "" := by
  intro h
  rw [h] at hs
  exact absurd hs (by decide)

/-! ## Closure invariant: every reachable store only holds vocabulary statuses -/

theorem execInsertUpdate_ok_inv (db db2 : DB) (now : Nat) (wid s msg : String)
    (h : execInsertUpdate db now wid s msg = .ok db2) :
    allowedAgentStatus s = true ∧
    db2 = { db with workerUpdates := db.workerUpdates ++ [⟨wid, s, some msg, now⟩] } := by
  unfold execInsertUpdate at h
  by_cases hs : allowedAgentStatus s
  · by_cases hw : db.hasWorker wid
    · simp only [hs, hw, Bool.not_true, Bool.false_eq_true, if_false, if_true, not_true_eq_false,
        ite_false, Except.ok.injEq] at h
      exact ⟨hs, h.symm⟩
    · simp [hs, hw] at h
  · simp [hs] at h

theorem execInsertHeartbeat_ok_inv (db db2 : DB) (now : Nat) (wid s : String)
    (h : execInsertHeartbeat db now wid s = .ok db2) :
    allowedAgentStatus s = true ∧
    db2 = { db with workerHeartbeats := db.workerHeartbeats ++ [⟨wid, s, none, now⟩] } := by
  unfold execInsertHeartbeat at h
  by_cases hs : allowedAgentStatus s
  · by_cases hw : db.hasWorker wid
    · simp only [hs, hw, Bool.not_true, Bool.false_eq_true, if_false, if_true, not_true_eq_false,
        ite_false, Except.ok.injEq] at h
      exact ⟨hs, h.symm⟩
    · simp [hs, hw] at h
  · simp [hs] at h

theorem execInsertAgentRow_ok_inv (db db2 : DB) (now : Nat) (id name ty : String)
    (h : execInsertAgentRow db now id name ty = .ok db2) :
    db2 = { db with workers := db.workers ++ [⟨id, name, ty, now⟩] } := by
  unfold execInsertAgentRow at h
  by_cases hw : db.hasWorker id
  · simp [hw] at h
  · simp only [hw, Bool.false_eq_true, if_false, Except.ok.injEq] at h
    exact h.symm

theorem dbStatusesValid_workers_update (db : DB) (ws : List WorkerRow)
    (h : dbStatusesValid db = true) :
    dbStatusesValid { db with workers := ws } = true := h

theorem dbStatusesValid_append_update (db : DB) (wid s msg : String) (now : Nat)
    (h : dbStatusesValid db = true) (hs : allowedAgentStatus s = true) :
    dbStatusesValid
      { db with workerUpdates := db.workerUpdates ++ [⟨wid, s, some msg, now⟩] } = true := by
  unfold dbStatusesValid at h ⊢
  simp only [List.all_append, List.all_cons, List.all_nil, Bool.and_eq_true] at h ⊢
  exact ⟨⟨h.1, by simpa using hs⟩, h.2⟩

theorem dbStatusesValid_append_heartbeat (db : DB) (wid s : String) (now : Nat)
    (h : dbStatusesValid db = true) (hs : allowedAgentStatus s = true) :
    dbStatusesValid
      { db with workerHeartbeats := db.workerHeartbeats ++ [⟨wid, s, none, now⟩] } = true := by
  unfold dbStatusesValid at h ⊢
  simp only [List.all_append, List.all_cons, List.all_nil, Bool.and_eq_true] at h ⊢
  exact ⟨h.1, h.2, by simpa using hs⟩

theorem applyOp_preserves (db : DB) (op : Op) (h : dbStatusesValid db = true) :
    dbStatusesValid (applyOp db op) = true := by
  cases op with
  | wReg now req =>
    show dbStatusesValid (workerRegisterHandler db now req).db = true
    cases hu : uuidParse req.id with
    | none => rw [workerRegisterHandler_parse_none db now req hu]; exact h
    | some u =>
      by_cases hn : req.name = ""
      · rw [workerRegisterHandler_empty_name db now req u hu hn]; exact h
      · rw [workerRegisterHandler_success db now req u hu hn]
        show dbStatusesValid (execInsertWorkerUpsert db now u req.name req.ty) = true
        unfold execInsertWorkerUpsert
        split <;> exact h
  | wUpd now req =>
    show dbStatusesValid (workerUpdateHandler db now req).db = true
    cases hu : uuidParse req.id with
    | none => rw [workerUpdateHandler_parse_none db now req hu]; exact h
    | some u =>
      cases he : execInsertUpdate db now u req.status req.message with
      | error e => rw [workerUpdateHandler_exec_error db now req u e hu he]; exact h
      | ok db2 =>
        rw [workerUpdateHandler_exec_ok db db2 now req u hu he]
        obtain ⟨hs, hdb2⟩ := execInsertUpdate_ok_inv db db2 now u req.status req.message he
        rw [hdb2]
        exact dbStatusesValid_append_update db u req.status req.message now h hs
  | wHb now req =>
    show dbStatusesValid (workerHeartbeatHandler db now req).db = true
    cases hu : uuidParse req.id with
    | none => rw [workerHeartbeatHandler_parse_none db now req hu]; exact h
    | some u =>
      cases he : execInsertHeartbeat db now u req.status with
      | error e => rw [workerHeartbeatHandler_exec_error db now req u e hu he]; exact h
      | ok db2 =>
        rw [workerHeartbeatHandler_exec_ok db db2 now req u hu he]
        obtain ⟨hs, hdb2⟩ := execInsertHeartbeat_ok_inv db db2 now u req.status he
        rw [hdb2]
        exact dbStatusesValid_append_heartbeat db u req.status now h hs
  | aReg ts now req =>
    show dbStatusesValid (agentRegisterHandler ts db now req).db = true
    cases hu : uuidParse req.id with
    | none => rw [agentRegisterHandler_parse_none ts db now req hu]; exact h
    | some u =>
      by_cases hn : req.name = ""
      · rw [agentRegisterHandler_empty_name ts db now req u hu hn]; exact h
      · by_cases ht : ts.contains req.ty = true
        · cases he : execInsertAgentRow db now u req.name req.ty with
          | error e =>
            obtain ⟨he2, -⟩ := execInsertAgentRow_error_inv db now u req.name req.ty e he
            subst he2
            rw [agentRegisterHandler_conflict ts db now req u hu hn ht he]
            exact h
          | ok db2 =>
            rw [agentRegisterHandler_ok ts db db2 now req u hu hn ht he]
            show dbStatusesValid db2 = true
            rw [execInsertAgentRow_ok_inv db db2 now u req.name req.ty he]
            exact h
        · rw [agentRegisterHandler_bad_type ts db now req u hu hn (by simpa using ht)]
          exact h
  | aUpd now req =>
    show dbStatusesValid (agentUpdateHandler db now req).db = true
    cases hu : uuidParse req.id with
    | none => rw [agentUpdateHandler_parse_none db now req hu]; exact h
    | some u =>
      by_cases hst : req.status = ""
      · rw [agentUpdateHandler_empty_status db now req u hu hst]; exact h
      · cases he : execInsertUpdate db now u req.status req.message with
        | error e => rw [agentUpdateHandler_exec_error db now req u e hu hst he]; exact h
        | ok db2 =>
          rw [agentUpdateHandler_exec_ok db db2 now req u hu hst he]
          obtain ⟨hs, hdb2⟩ := execInsertUpdate_ok_inv db db2 now u req.status req.message he
          rw [hdb2]
          exact dbStatusesValid_append_update db u req.status req.message now h hs
  | aHb now req =>
    show dbStatusesValid (agentHeartbeatHandler db now req).db = true
    cases hu : uuidParse req.id with
    | none => rw [agentHeartbeatHandler_parse_none db now req hu]; exact h
    | some u =>
      by_cases hst : req.status = ""
      · rw [agentHeartbeatHandler_empty_status db now req u hu hst]; exact h
      · by_cases hs : allowedAgentStatus req.status
        · cases he : execInsertHeartbeat db now u req.status with
          | error e =>
            rw [agentHeartbeatHandler_exec_error db now req u e hu hst hs he]; exact h
          | ok db2 =>
            rw [agentHeartbeatHandler_exec_ok db db2 now req u hu hst hs he]
            obtain ⟨hs2, hdb2⟩ := execInsertHeartbeat_ok_inv db db2 now u req.status he
            rw [hdb2]
            exact dbStatusesValid_append_heartbeat db u req.status now h hs2
        · rw [agentHeartbeatHandler_bad_status db now req u hu hst (by simpa using hs)]
          exact h

theorem runOps_valid (ops : List Op) : dbStatusesValid (runOps ops) = true := by
  suffices hgen : ∀ db, dbStatusesValid db = true →
      dbStatusesValid (ops.foldl applyOp db) = true by
    exact hgen emptyDB rfl
  induction ops with
  | nil => intro db h; exact h
  | cons op t ih =>
    intro db h
    rw [List.foldl_cons]
    exact ih (applyOp db op) (applyOp_preserves db op h)

/-- C5: an Update or Heartbeat carrying an agent_id never accepted by
Register fails and writes no event: the storage layer's foreign key rejects
the row (the UnknownAgent rejection of the spec, surfaced by every handler
as a 500 storage failure), and the store is returned unchanged.  Stated for
the storage operations and for all four Update/Heartbeat handlers. -/
theorem c5_referential_integrity (db : DB) (now : Nat) (idStr u s msg : String)
    (hu : uuidParse idStr = some u) (hs : allowedAgentStatus s = true)
    (hreg : db.hasWorker u = false) :
    execInsertUpdate db now u s msg = .error PgError.fkViolation ∧
    execInsertHeartbeat db now u s = .error PgError.fkViolation ∧
    workerUpdateHandler db now ⟨idStr, s, msg⟩ =
      ⟨⟨500, "failed to update worker status"⟩, db, true⟩ ∧
    workerHeartbeatHandler db now ⟨idStr, s⟩ =
      ⟨⟨500, "failed to insert heartbeat"⟩, db, true⟩ ∧
    agentUpdateHandler db now ⟨idStr, s, msg⟩ =
      ⟨⟨500, "failed to update Agent status"⟩, db, true⟩ ∧
    agentHeartbeatHandler db now ⟨idStr, s⟩ =
      ⟨⟨500, "failed to insert heartbeat"⟩, db, true⟩ := by
  have hne := allowedAgentStatus_ne_empty s hs
  have he1 := execInsertUpdate_fk db now u s msg hs hreg
  have he2 := execInsertHeartbeat_fk db now u s hs hreg
  refine ⟨he1, he2, ?_, ?_, ?_, ?_⟩
  · exact workerUpdateHandler_exec_error db now ⟨idStr, s, msg⟩ u _ hu he1
  · exact workerHeartbeatHandler_exec_error db now ⟨idStr, s⟩ u _ hu he2
  · exact agentUpdateHandler_exec_error db now ⟨idStr, s, msg⟩ u _ hu hne he1
  · exact agentHeartbeatHandler_exec_error db now ⟨idStr, s⟩ u _ hu hne hs he2

theorem c5_referential_integrity_witness :
    execInsertUpdate emptyDB 7 "22222222-2222-2222-2222-222222222222" "healthy" "m"
      = .error PgError.fkViolation ∧
    execInsertHeartbeat emptyDB 7 "22222222-2222-2222-2222-222222222222" "healthy"
      = .error PgError.fkViolation ∧
    workerUpdateHandler emptyDB 7 ⟨"22222222-2222-2222-2222-222222222222", "healthy", "m"⟩ =
      ⟨⟨500, "failed to update worker status"⟩, emptyDB, true⟩ ∧
    workerHeartbeatHandler emptyDB 7 ⟨"22222222-2222-2222-2222-222222222222", "healthy"⟩ =
      ⟨⟨500, "failed to insert heartbeat"⟩, emptyDB, true⟩ ∧
    agentUpdateHandler emptyDB 7 ⟨"22222222-2222-2222-2222-222222222222", "healthy", "m"⟩ =
      ⟨⟨500, "failed to update Agent status"⟩, emptyDB, true⟩ ∧
    agentHeartbeatHandler emptyDB 7 ⟨"22222222-2222-2222-2222-222222222222", "healthy"⟩ =
      ⟨⟨500, "failed to insert heartbeat"⟩, emptyDB, true⟩ :=
  c5_referential_integrity emptyDB 7 "22222222-2222-2222-2222-222222222222"
    "22222222-2222-2222-2222-222222222222" "healthy" "m"
    (by decide) (by decide) (by decide)

/-- C2 counterexample: with the worker of the spec scenario registered, an
Update carrying the out-of-vocabulary status "bogus" is NOT rejected with a
validation error: WorkerUpdateHandler reaches storage and surfaces the enum
rejection as a 500 storage failure (though indeed no event is written). -/
theorem c2_counterexample :
    (workerUpdateHandler
        (workerRegisterHandler emptyDB 1
          ⟨"12344567-e89b-12d3-a456-426614174000", "test-worker", "bot"⟩).db 2
        ⟨"12344567-e89b-12d3-a456-426614174000", "bogus", "m"⟩).resp.status = 500 ∧
    (workerUpdateHandler
        (workerRegisterHandler emptyDB 1
          ⟨"12344567-e89b-12d3-a456-426614174000", "test-worker", "bot"⟩).db 2
        ⟨"12344567-e89b-12d3-a456-426614174000", "bogus", "m"⟩).storageAccessed = true ∧
    (workerUpdateHandler
        (workerRegisterHandler emptyDB 1
          ⟨"12344567-e89b-12d3-a456-426614174000", "test-worker", "bot"⟩).db 2
        ⟨"12344567-e89b-12d3-a456-426614174000", "bogus", "m"⟩).db =
      (workerRegisterHandler emptyDB 1
        ⟨"12344567-e89b-12d3-a456-426614174000", "test-worker", "bot"⟩).db := by
  refine ⟨?_, ?_, ?_⟩ <;> decide

/-- C2 amended: no event with an out-of-vocabulary status is ever persisted,
and in-vocabulary statuses with a registered agent succeed - but only the
Agent heartbeat handler rejects a bad status with a 400 validation error
before storage; the Update handlers (both variants) and the Worker heartbeat
handler forward it to storage, whose enum constraint rejects it as a 500
storage failure with the store unchanged.  Every reachable store therefore
only holds vocabulary statuses. -/
theorem c2_vocabulary_closure :
    (∀ (db : DB) (now : Nat) (idStr s msg u : String),
      allowedAgentStatus s = false →
      ((agentHeartbeatHandler db now ⟨idStr, s⟩).resp.status = 400 ∧
       (agentHeartbeatHandler db now ⟨idStr, s⟩).db = db ∧
       (agentHeartbeatHandler db now ⟨idStr, s⟩).storageAccessed = false) ∧
      (uuidParse idStr = some u →
        workerUpdateHandler db now ⟨idStr, s, msg⟩ =
          ⟨⟨500, "failed to update worker status"⟩, db, true⟩ ∧
        workerHeartbeatHandler db now ⟨idStr, s⟩ =
          ⟨⟨500, "failed to insert heartbeat"⟩, db, true⟩ ∧
        (s ≠ "" → agentUpdateHandler db now ⟨idStr, s, msg⟩ =
          ⟨⟨500, "failed to update Agent status"⟩, db, true⟩))) ∧
    (∀ (db : DB) (now : Nat) (idStr s msg u : String),
      allowedAgentStatus s = true → uuidParse idStr = some u →
      db.hasWorker u = true →
      workerUpdateHandler db now ⟨idStr, s, msg⟩ =
        ⟨⟨200, "worker status updated"⟩,
         { db with workerUpdates := db.workerUpdates ++ [⟨u, s, some msg, now⟩] }, true⟩ ∧
      workerHeartbeatHandler db now ⟨idStr, s⟩ =
        ⟨⟨200, "heartbeat recorded"⟩,
         { db with workerHeartbeats := db.workerHeartbeats ++ [⟨u, s, none, now⟩] }, true⟩ ∧
      agentUpdateHandler db now ⟨idStr, s, msg⟩ =
        ⟨⟨200, "Agent status updated"⟩,
         { db with workerUpdates := db.workerUpdates ++ [⟨u, s, some msg, now⟩] }, true⟩ ∧
      agentHeartbeatHandler db now ⟨idStr, s⟩ =
        ⟨⟨200, "heartbeat recorded"⟩,
         { db with workerHeartbeats := db.workerHeartbeats ++ [⟨u, s, none, now⟩] }, true⟩) ∧
    (∀ ops : List Op, dbStatusesValid (runOps ops) = true) := by
  refine ⟨?_, ?_, runOps_valid⟩
  · intro db now idStr s msg u hs
    constructor
    · cases hu : uuidParse idStr with
      | none =>
        rw [agentHeartbeatHandler_parse_none db now ⟨idStr, s⟩ hu]
        exact ⟨rfl, rfl, rfl⟩
      | some u2 =>
        by_cases hse : s = ""
        · rw [agentHeartbeatHandler_empty_status db now ⟨idStr, s⟩ u2 hu hse]
          exact ⟨rfl, rfl, rfl⟩
        · rw [agentHeartbeatHandler_bad_status db now ⟨idStr, s⟩ u2 hu hse hs]
          exact ⟨rfl, rfl, rfl⟩
    · intro hu
      have he1 := execInsertUpdate_invalid db now u s msg hs
      have he2 := execInsertHeartbeat_invalid db now u s hs
      exact ⟨workerUpdateHandler_exec_error db now ⟨idStr, s, msg⟩ u _ hu he1,
             workerHeartbeatHandler_exec_error db now ⟨idStr, s⟩ u _ hu he2,
             fun hne => agentUpdateHandler_exec_error db now ⟨idStr, s, msg⟩ u _ hu hne he1⟩
  · intro db now idStr s msg u hs hu hw
    have hne := allowedAgentStatus_ne_empty s hs
    have he1 := execInsertUpdate_ok db now u s msg hs hw
    have he2 := execInsertHeartbeat_ok db now u s hs hw
    exact ⟨workerUpdateHandler_exec_ok db _ now ⟨idStr, s, msg⟩ u hu he1,
           workerHeartbeatHandler_exec_ok db _ now ⟨idStr, s⟩ u hu he2,
           agentUpdateHandler_exec_ok db _ now ⟨idStr, s, msg⟩ u hu hne he1,
           agentHeartbeatHandler_exec_ok db _ now ⟨idStr, s⟩ u hu hne hs he2⟩

theorem c2_vocabulary_closure_witness :
    ((agentHeartbeatHandler emptyDB 3
        ⟨"11111111-1111-1111-1111-111111111111", "bogus"⟩).resp.status = 400 ∧
     (agentHeartbeatHandler emptyDB 3
        ⟨"11111111-1111-1111-1111-111111111111", "bogus"⟩).db = emptyDB ∧
     (agentHeartbeatHandler emptyDB 3
        ⟨"11111111-1111-1111-1111-111111111111", "bogus"⟩).storageAccessed = false) ∧
    workerHeartbeatHandler
        (⟨[⟨"11111111-1111-1111-1111-111111111111", "w1", "default", 1⟩], [], []⟩ : DB) 4
        ⟨"11111111-1111-1111-1111-111111111111", "healthy"⟩ =
      ⟨⟨200, "heartbeat recorded"⟩,
       { (⟨[⟨"11111111-1111-1111-1111-111111111111", "w1", "default", 1⟩], [], []⟩ : DB) with
         workerHeartbeats :=
           (⟨[⟨"11111111-1111-1111-1111-111111111111", "w1", "default", 1⟩], [], []⟩ : DB).workerHeartbeats
             ++ [⟨"11111111-1111-1111-1111-111111111111", "healthy", none, 4⟩] }, true⟩ :=
  ⟨(c2_vocabulary_closure.1 emptyDB 3 "11111111-1111-1111-1111-111111111111" "bogus" ""
      "11111111-1111-1111-1111-111111111111" (by decide)).1,
   (c2_vocabulary_closure.2.1
      (⟨[⟨"11111111-1111-1111-1111-111111111111", "w1", "default", 1⟩], [], []⟩ : DB) 4
      "11111111-1111-1111-1111-111111111111" "healthy" "m"
      "11111111-1111-1111-1111-111111111111" (by decide) (by decide) (by decide)).2.1⟩

/-- C4 counterexample: a status outside the vocabulary is a ValidationError
per the claim, yet with a registered agent the Agent-variant Update handler
reaches storage with it (storageAccessed = true) and reports a 500 server
failure rather than a synchronous validation rejection, refuting "detected
before any storage access" for this error class. -/
theorem c4_counterexample :
    (agentUpdateHandler
        (agentRegisterHandler allowedAgentTypesDefault emptyDB 1
          ⟨"33333333-3333-3333-3333-333333333333", "w3", "default"⟩).db 2
        ⟨"33333333-3333-3333-3333-333333333333", "bogus", "m"⟩).storageAccessed = true ∧
    (agentUpdateHandler
        (agentRegisterHandler allowedAgentTypesDefault emptyDB 1
          ⟨"33333333-3333-3333-3333-333333333333", "w3", "default"⟩).db 2
        ⟨"33333333-3333-3333-3333-333333333333", "bogus", "m"⟩).resp.status = 500 := by
  constructor <;> decide

/-- C4 amended: the malformed-UUID and empty-required-field validation errors
(and the type allow-list in the Agent register handler) are detected before
any storage access, reported 400 synchronously, and leave the store
untouched, in every handler that performs the check; an out-of-vocabulary
status, however, is caught pre-storage (400) only by the Agent heartbeat
handler - the Update handlers of both variants and the Worker heartbeat
handler reach storage with it and report the enum rejection as a 500, though
the store is still unchanged on every one of these error paths. -/
theorem c4_validation_before_storage :
    (∀ (db : DB) (now : Nat) (badId name ty s msg : String),
      uuidParse badId = none →
      workerRegisterHandler db now ⟨badId, name, ty⟩ = ⟨⟨400, "invalid UUID"⟩, db, false⟩ ∧
      agentRegisterHandler allowedAgentTypesDefault db now ⟨badId, name, ty⟩ =
        ⟨⟨400, "invalid UUID"⟩, db, false⟩ ∧
      workerUpdateHandler db now ⟨badId, s, msg⟩ = ⟨⟨400, "invalid UUID"⟩, db, false⟩ ∧
      agentUpdateHandler db now ⟨badId, s, msg⟩ = ⟨⟨400, "invalid UUID"⟩, db, false⟩ ∧
      workerHeartbeatHandler db now ⟨badId, s⟩ = ⟨⟨400, "invalid UUID"⟩, db, false⟩ ∧
      agentHeartbeatHandler db now ⟨badId, s⟩ = ⟨⟨400, "invalid UUID"⟩, db, false⟩) ∧
    (∀ (db : DB) (now : Nat) (idStr u name ty msg : String) (ts : List String),
      uuidParse idStr = some u →
      (name = "" →
        workerRegisterHandler db now ⟨idStr, name, ty⟩ =
          ⟨⟨400, "name is required"⟩, db, false⟩ ∧
        agentRegisterHandler ts db now ⟨idStr, name, ty⟩ =
          ⟨⟨400, "name is required"⟩, db, false⟩) ∧
      agentUpdateHandler db now ⟨idStr, "", msg⟩ = ⟨⟨400, "status is required"⟩, db, false⟩ ∧
      agentHeartbeatHandler db now ⟨idStr, ""⟩ = ⟨⟨400, "status is required"⟩, db, false⟩ ∧
      (name ≠ "" → ts.contains ty = false →
        agentRegisterHandler ts db now ⟨idStr, name, ty⟩ =
          ⟨⟨400, "invalid Agent type"⟩, db, false⟩)) ∧
    (∀ (db : DB) (now : Nat) (idStr u s msg : String),
      uuidParse idStr = some u → allowedAgentStatus s = false → s ≠ "" →
      agentHeartbeatHandler db now ⟨idStr, s⟩ = ⟨⟨400, "invalid status value"⟩, db, false⟩ ∧
      workerUpdateHandler db now ⟨idStr, s, msg⟩ =
        ⟨⟨500, "failed to update worker status"⟩, db, true⟩ ∧
      workerHeartbeatHandler db now ⟨idStr, s⟩ =
        ⟨⟨500, "failed to insert heartbeat"⟩, db, true⟩ ∧
      agentUpdateHandler db now ⟨idStr, s, msg⟩ =
        ⟨⟨500, "failed to update Agent status"⟩, db, true⟩) := by
  refine ⟨?_, ?_, ?_⟩
  · intro db now badId name ty s msg hu
    exact ⟨workerRegisterHandler_parse_none db now ⟨badId, name, ty⟩ hu,
           agentRegisterHandler_parse_none allowedAgentTypesDefault db now ⟨badId, name, ty⟩ hu,
           workerUpdateHandler_parse_none db now ⟨badId, s, msg⟩ hu,
           agentUpdateHandler_parse_none db now ⟨badId, s, msg⟩ hu,
           workerHeartbeatHandler_parse_none db now ⟨badId, s⟩ hu,
           agentHeartbeatHandler_parse_none db now ⟨badId, s⟩ hu⟩
  · intro db now idStr u name ty msg ts hu
    refine ⟨fun hn => ⟨workerRegisterHandler_empty_name db now ⟨idStr, name, ty⟩ u hu hn,
                       agentRegisterHandler_empty_name ts db now ⟨idStr, name, ty⟩ u hu hn⟩,
            agentUpdateHandler_empty_status db now ⟨idStr, "", msg⟩ u hu rfl,
            agentHeartbeatHandler_empty_status db now ⟨idStr, ""⟩ u hu rfl,
            fun hn ht => agentRegisterHandler_bad_type ts db now ⟨idStr, name, ty⟩ u hu hn ht⟩
  · intro db now idStr u s msg hu hs hne
    have he1 := execInsertUpdate_invalid db now u s msg hs
    have he2 := execInsertHeartbeat_invalid db now u s hs
    exact ⟨agentHeartbeatHandler_bad_status db now ⟨idStr, s⟩ u hu hne hs,
           workerUpdateHandler_exec_error db now ⟨idStr, s, msg⟩ u _ hu he1,
           workerHeartbeatHandler_exec_error db now ⟨idStr, s⟩ u _ hu he2,
           agentUpdateHandler_exec_error db now ⟨idStr, s, msg⟩ u _ hu hne he1⟩

theorem c4_validation_before_storage_witness :
    workerRegisterHandler emptyDB 9 ⟨"not-a-uuid", "test", "bot"⟩ =
      ⟨⟨400, "invalid UUID"⟩, emptyDB, false⟩ ∧
    workerRegisterHandler emptyDB 9
        ⟨"44444444-4444-4444-4444-444444444444", "", "bot"⟩ =
      ⟨⟨400, "name is required"⟩, emptyDB, false⟩ ∧
    agentRegisterHandler allowedAgentTypesDefault emptyDB 9
        ⟨"44444444-4444-4444-4444-444444444444", "test", "bot"⟩ =
      ⟨⟨400, "invalid Agent type"⟩, emptyDB, false⟩ ∧
    agentHeartbeatHandler emptyDB 9
        ⟨"44444444-4444-4444-4444-444444444444", "bogus"⟩ =
      ⟨⟨400, "invalid status value"⟩, emptyDB, false⟩ ∧
    workerUpdateHandler emptyDB 9
        ⟨"44444444-4444-4444-4444-444444444444", "bogus", "m"⟩ =
      ⟨⟨500, "failed to update worker status"⟩, emptyDB, true⟩ :=
  ⟨(c4_validation_before_storage.1 emptyDB 9 "not-a-uuid" "test" "bot" "x" "m"
      (by decide)).1,
   ((c4_validation_before_storage.2.1 emptyDB 9 "44444444-4444-4444-4444-444444444444"
      "44444444-4444-4444-4444-444444444444" "" "bot" "m" allowedAgentTypesDefault
      (by decide)).1 rfl).1,
   ((c4_validation_before_storage.2.1 emptyDB 9 "44444444-4444-4444-4444-444444444444"
      "44444444-4444-4444-4444-444444444444" "test" "bot" "m" allowedAgentTypesDefault
      (by decide)).2.2.2 (by decide) (by decide)),
   (c4_validation_before_storage.2.2 emptyDB 9 "44444444-4444-4444-4444-444444444444"
      "44444444-4444-4444-4444-444444444444" "bogus" "m"
      (by decide) (by decide) (by decide)).1,
   (c4_validation_before_storage.2.2 emptyDB 9 "44444444-4444-4444-4444-444444444444"
      "44444444-4444-4444-4444-444444444444" "bogus" "m"
      (by decide) (by decide) (by decide)).2.1⟩

end Pulse
